import Mathlib

/-!
Shallow embedding of the Xray-Vless-auto-Deploy backend
(src/backend/config_manager.py, src/backend/models.py, src/backend/main.py).

JSON dictionaries are embedded as structures with `Option` fields where the
Python code uses `.get` with a default or where the key may be absent; a
Python `KeyError`/`IndexError` is embedded as an `Option`/`Except` result.
External subprocess outcomes (the `xray -test` exit code, the `xray version`
stdout) are inputs to the embedded functions.  File-system effects are
embedded as explicit state passing over an `FS` record.
-/

set_option autoImplicit false

namespace Xray

/-- Protocol classification enumeration (models.py `ProtocolType`). -/
inductive ProtocolType where
  | vless_ws
  | vless_xhttp
  | vless_reality
  | vmess_ws
  | trojan_xtls
  deriving Repr, DecidableEq

/-- Reality stream settings: `realitySettings.serverNames` / `realitySettings.shortIds`
as read by config_manager.py. -/
structure RealitySettings where
  serverNames : List String
  shortIds : List String
  deriving Repr, DecidableEq

/-- The `streamSettings` dictionary of an inbound: `network`, `security` and
`realitySettings` are all read with `.get` (or raise when absent), so they are
`Option` fields here. -/
structure StreamSettings where
  network : Option String
  security : Option String
  realitySettings : Option RealitySettings
  deriving Repr, DecidableEq

/-- One entry of `inbounds[0].settings.clients`: `id` is accessed with
`client["id"]`, `email` and `flow` with `.get`. -/
structure Client where
  id : String
  email : Option String
  flow : Option String
  deriving Repr, DecidableEq

/-- The `settings` dictionary of an inbound.  The code reads the client list
with `settings.get("clients", [])` in some places and `settings["clients"]`
in others, so the field is an `Option`. -/
structure InboundSettings where
  clients : Option (List Client)
  deriving Repr, DecidableEq

/-- One inbound listener definition.  `protocol` is read with
`inbound.get("protocol", "")` and `streamSettings` with
`inbound.get("streamSettings", {})`, hence the `Option`s. -/
structure Inbound where
  protocol : Option String
  port : Nat
  settings : InboundSettings
  streamSettings : Option StreamSettings
  deriving Repr, DecidableEq

/-- The configuration document; the code only ever touches `inbounds[0]`. -/
structure Config where
  inbounds : List Inbound
  deriving Repr, DecidableEq

/-- Python `str.lower()` (exact on the ASCII range, which is all the code
compares against). -/
def pyLower (s : String) : String :=
  String.mk (s.data.map Char.toLower)

/-- Python `str.strip()`: drop whitespace from both ends. -/
def pyStrip (s : String) : String :=
  String.mk (((s.data.dropWhile Char.isWhitespace).reverse.dropWhile
    Char.isWhitespace).reverse)

/-- The `security` value used by `_detect_protocol`:
`inbound.get("streamSettings", {}).get("security", "none")`. -/
def securityOf (inbound : Inbound) : String :=
  ((inbound.streamSettings.bind StreamSettings.security).getD "none")

/-- The `network` value used by `_detect_protocol`:
`inbound.get("streamSettings", {}).get("network", "tcp")`. -/
def networkOf (inbound : Inbound) : String :=
  ((inbound.streamSettings.bind StreamSettings.network).getD "tcp")

/-- Embedding of `ConfigManager._detect_protocol` (config_manager.py lines 298-317):
lower-cases `inbound.get("protocol", "")`, then branches on security/network. -/
def detect_protocol (inbound : Inbound) : ProtocolType :=
  let protocol := pyLower (inbound.protocol.getD "")
  if protocol = "vless" then
    if securityOf inbound = "reality" then ProtocolType.vless_reality
    else if networkOf inbound = "xhttp" then ProtocolType.vless_xhttp
    else ProtocolType.vless_ws
  else if protocol = "vmess" then ProtocolType.vmess_ws
  else if protocol = "trojan" then ProtocolType.trojan_xtls
  else ProtocolType.vless_reality

/-- Embedding of `ConfigManager._generate_connection_link` (config_manager.py
lines 373-409).  For `vless_reality` the Python code indexes
`inbound["streamSettings"]["realitySettings"]["serverNames"][0]` and
`["shortIds"][0]`; a missing key or empty list raises, embedded as `none`. -/
def generate_connection_link (client_id : String) (server_ip : String) (port : Nat)
    (protocol_type : ProtocolType) (inbound : Inbound) (email : String) :
    Option String :=
  match protocol_type with
  | ProtocolType.vless_reality =>
    match inbound.streamSettings with
    | none => none
    | some ss =>
      match ss.realitySettings with
      | none => none
      | some rs =>
        match rs.serverNames, rs.shortIds with
        | sni :: _, short_id :: _ =>
          some ("vless://" ++ client_id ++ "@" ++ server_ip ++ ":" ++ toString port
            ++ "?type=tcp&security=reality"
            ++ "&sni=" ++ sni
            ++ "&sid=" ++ short_id
            ++ "&flow=xtls-rprx-vision"
            ++ "#" ++ email)
        | _, _ => none
  | ProtocolType.vless_ws =>
    some ("vless://" ++ client_id ++ "@" ++ server_ip ++ ":" ++ toString port
      ++ "?type=ws&security=none" ++ "#" ++ email)
  | _ =>
    some ("vless://" ++ client_id ++ "@" ++ server_ip ++ ":" ++ toString port
      ++ "#" ++ email)

/-- The client list of the first inbound, read the way `delete_profile` and
`get_all_profiles` read it: `config["inbounds"][0]["settings"].get("clients", [])`
(an empty `inbounds` list would raise, so callers match on it first). -/
def clientsOfConfig (config : Config) : List Client :=
  match config.inbounds with
  | [] => []
  | inbound :: _ => inbound.settings.clients.getD []

/-- Replace the client list of the first inbound, as
`inbound["settings"]["clients"] = filtered_clients` does (the `config` dict is
mutated in place and then written). -/
def setClients (config : Config) (clients : List Client) : Config :=
  match config.inbounds with
  | [] => config
  | inbound :: rest =>
    { config with inbounds := { inbound with settings := { clients := some clients } } :: rest }

/-- Embedding of `ConfigManager.delete_profile` (config_manager.py lines 178-195),
modulo the lock and the final `_write_config` persistence step: the returned
`Config` is the document as persisted (unchanged when nothing was removed,
since the code returns `False` before writing).  `none` embeds the
`IndexError` on an empty `inbounds` list. -/
def delete_profile (config : Config) (profile_id : String) : Option (Bool × Config) :=
  match config.inbounds with
  | [] => none
  | inbound :: _ =>
    let clients := inbound.settings.clients.getD []
    let filtered_clients := clients.filter (fun c => c.id ≠ profile_id)
    if filtered_clients.length = clients.length then
      some (false, config)
    else
      some (true, setClients config filtered_clients)

/-- Embedding of `ProfileCreate.validate_email` (models.py lines 51-55):
`v.strip().lower()`. -/
def validate_email (v : String) : String :=
  pyLower (pyStrip v)

/-- Embedding of the client-construction part of `ConfigManager.create_profile`
(config_manager.py lines 138-176): generate a client with the supplied email,
attach the `xtls-rprx-vision` flow when the detected protocol is
`vless_reality`, and append it to `inbound["settings"]["clients"]` (a direct
key access, so a missing list raises, embedded as `none`).  The fresh UUID is
an input, and persistence via `_write_config` is applied by the caller. -/
def create_profile (config : Config) (new_uuid : String) (email : String) :
    Option (Client × Config) :=
  match config.inbounds with
  | [] => none
  | inbound :: _ =>
    let protocol_type := detect_protocol inbound
    let new_client : Client :=
      { id := new_uuid
        email := some email
        flow := if protocol_type = ProtocolType.vless_reality
                then some "xtls-rprx-vision" else none }
    match inbound.settings.clients with
    | none => none
    | some clients => some (new_client, setClients config (clients ++ [new_client]))

/-- Labels as returned by profile listing: `get_all_profiles` builds one
`ProfileResponse` per client, in client-list order, whose `email` field is
`client.get("email")`. -/
def listedLabels (config : Config) : List (Option String) :=
  (clientsOfConfig config).map Client.email

/-- Embedding of the `POST /api/profiles` handler (main.py lines 87-113): the
endpoint takes the raw `email` query string and passes it to
`config_manager.create_profile` unchanged — `ProfileCreate` is never applied. -/
def endpoint_create_profile (config : Config) (new_uuid : String) (email : String) :
    Option (Client × Config) :=
  create_profile config new_uuid email

/-! ### File-system state and the write/validate/backup/restore operations

Files hold parsed configuration documents; `json.dumps`/`json.loads` round-trip
is the identity in this embedding.  The exit code of `/usr/local/bin/xray -test`
on a candidate document is an input function `xrayTest`. -/

/-- On-disk state touched by the Configuration Manager: the canonical config
file, its `.tmp` write sibling, the throwaway `/tmp/xray_test_config.json`
validation file, and the backup directory (list of backup-file contents in
creation order).  `none` means the file does not exist. -/
structure FS where
  canonical : Option Config
  tmpSibling : Option Config
  validationTmp : Option Config
  backups : List Config
  deriving Repr, DecidableEq

/-- Embedding of `ConfigManager._validate_config` (config_manager.py lines
71-98): write the candidate to the throwaway file, run `xray -test`, raise
`ValueError` on a non-zero exit code, and remove the throwaway file in a
`finally` block regardless of outcome. -/
def validate_config (xrayTest : Config → Int) (fs : FS) (config : Config) :
    Except String Unit × FS :=
  let fs1 : FS := { fs with validationTmp := some config }
  let result : Except String Unit :=
    if xrayTest config = 0 then Except.ok ()
    else Except.error "Invalid Xray config"
  let fs2 : FS := { fs1 with validationTmp := none }
  (result, fs2)

/-- Embedding of `ConfigManager._write_config` (config_manager.py lines 57-69):
validate first (a validation failure propagates before anything is written),
then write the `.tmp` sibling and atomically rename it over the canonical path. -/
def write_config (xrayTest : Config → Int) (fs : FS) (config : Config) :
    Except String Unit × FS :=
  match validate_config xrayTest fs config with
  | (Except.error e, fs1) => (Except.error e, fs1)
  | (Except.ok _, fs1) =>
    let fs2 : FS := { fs1 with tmpSibling := some config }
    let fs3 : FS := { fs2 with canonical := some config, tmpSibling := none }
    (Except.ok (), fs3)

/-- Embedding of `ConfigManager.create_backup` (config_manager.py lines 251-272):
`shutil.copy2` the canonical file into the backup directory (raising when the
canonical file is absent), returning the copied contents. -/
def create_backup (fs : FS) : Except String Config × FS :=
  match fs.canonical with
  | none => (Except.error "Config not found", fs)
  | some c => (Except.ok c, { fs with backups := fs.backups ++ [c] })

/-- Embedding of `ConfigManager.restore_backup` (config_manager.py lines
274-295): `backupFile` is the parsed content of the given path (`none` when the
path does not exist, which raises `FileNotFoundError`); validate it like an
ordinary write, take a safety backup of the current canonical file, then copy
the backup directly over the canonical path (no `.tmp`-then-rename). -/
def restore_backup (xrayTest : Config → Int) (fs : FS) (backupFile : Option Config) :
    Except String Bool × FS :=
  match backupFile with
  | none => (Except.error "Backup not found", fs)
  | some config =>
    match validate_config xrayTest fs config with
    | (Except.error e, fs1) => (Except.error e, fs1)
    | (Except.ok _, fs1) =>
      match create_backup fs1 with
      | (Except.error e, fs2) => (Except.error e, fs2)
      | (Except.ok _, fs2) => (Except.ok true, { fs2 with canonical := some config })

/-! ### Statistics -/

/-- Statistics snapshot (models.py `StatsResponse`); every counter defaults
to zero. -/
structure StatsResponse where
  active_connections : Nat := 0
  total_profiles : Nat := 0
  uptime_seconds : Nat := 0
  total_traffic_bytes : Nat := 0
  deriving Repr, DecidableEq

/-- The all-zero snapshot `StatsResponse()` returned on failure. -/
def zeroStats : StatsResponse := {}

/-- Embedding of `ConfigManager.get_statistics` (config_manager.py lines
197-214): the whole body sits in a `try` whose `except Exception` returns
`StatsResponse()`.  `readResult` is the outcome of `_read_config` (absent or
unparseable file gives an error); `_get_xray_uptime` always returns 0; the
connection and traffic counters are hard-coded 0. -/
def get_statistics (readResult : Except String Config) : StatsResponse :=
  match readResult with
  | Except.error _ => zeroStats
  | Except.ok config =>
    match config.inbounds with
    | [] => zeroStats
    | inbound :: _ =>
      { active_connections := 0
        total_profiles := (inbound.settings.clients.getD []).length
        uptime_seconds := 0
        total_traffic_bytes := 0 }

/-! ### System info: version parsing -/

/-- Helper for `pyTokens`: walk the characters accumulating the current token
(reversed), emitting it at each whitespace run and at the end. -/
def splitWsAux : List Char → List Char → List String
  | [], acc => if acc.isEmpty then [] else [String.mk acc.reverse]
  | c :: cs, acc =>
    if c.isWhitespace then
      if acc.isEmpty then splitWsAux cs []
      else String.mk acc.reverse :: splitWsAux cs []
    else splitWsAux cs (c :: acc)

/-- Python `str.split()` with no separator: split on whitespace runs, dropping
empty tokens. -/
def pyTokens (s : String) : List String :=
  splitWsAux s.data []

/-- Python `s.split("\n")[0]`: the first line of `s`. -/
def firstLineOf (s : String) : String :=
  String.mk (s.data.takeWhile (fun c => c ≠ '\n'))

/-- Embedding of the version parse in `ConfigManager.get_system_info`
(config_manager.py line 226):
`stdout.decode().split("\n")[0].split()[-1] if stdout else "unknown"`.
`none` embeds the `IndexError` raised by `[-1]` when the first line has no
whitespace-delimited token while `stdout` is non-empty. -/
def parse_xray_version (stdout : String) : Option String :=
  if stdout = "" then some "unknown"
  else (pyTokens (firstLineOf stdout)).getLast?

/-! ### Lock usage traces

Each Configuration Manager operation is abstracted to the sequence of
lock/document actions its body performs, in source order.  `async with
self.lock` brackets a body with acquire/release; reading, writing, or copying
`self.config_path` touches the document. -/

/-- Atomic actions relevant to the concurrency contract. -/
inductive Action where
  | lockAcquire
  | lockRelease
  | readDoc
  | writeDoc
  | copyDocOut
  | copyOverDoc
  | runExternal
  deriving Repr, DecidableEq

/-- Whether an action touches the configuration document. -/
def touchesDoc : Action → Bool
  | Action.readDoc => true
  | Action.writeDoc => true
  | Action.copyDocOut => true
  | Action.copyOverDoc => true
  | _ => false

/-- Scan a trace keeping track of whether the lock is held; `true` iff every
document-touching action happens while the lock is held. -/
def touchesLockedFrom : List Action → Bool → Bool
  | [], _ => true
  | Action.lockAcquire :: rest, _ => touchesLockedFrom rest true
  | Action.lockRelease :: rest, _ => touchesLockedFrom rest false
  | a :: rest, locked => (!touchesDoc a || locked) && touchesLockedFrom rest locked

/-- Every document-touching action of the trace occurs under the lock. -/
def allTouchesLocked (trace : List Action) : Bool :=
  touchesLockedFrom trace false

/-- Trace of `get_all_profiles` (lines 100-128): `async with self.lock` around
`_read_config` and pure response building (plus the server-IP probe). -/
def get_all_profiles_trace : List Action :=
  [Action.lockAcquire, Action.readDoc, Action.runExternal, Action.lockRelease]

/-- Trace of `create_profile` (lines 138-176): lock, read, validate (external
test), write, respond. -/
def create_profile_trace : List Action :=
  [Action.lockAcquire, Action.readDoc, Action.runExternal, Action.writeDoc,
   Action.runExternal, Action.lockRelease]

/-- Trace of a successful `delete_profile` (lines 178-195): lock, read,
validate, write. -/
def delete_profile_trace : List Action :=
  [Action.lockAcquire, Action.readDoc, Action.runExternal, Action.writeDoc,
   Action.lockRelease]

/-- Trace of `get_statistics` (lines 197-214): `_read_config` and the uptime
probe with no `async with self.lock` anywhere in the body. -/
def get_statistics_trace : List Action :=
  [Action.readDoc, Action.runExternal]

/-- Trace of `get_system_info` (lines 216-249): version query, BBR probe and
`_read_config`, with no lock. -/
def get_system_info_trace : List Action :=
  [Action.runExternal, Action.runExternal, Action.readDoc]

/-- Trace of `create_backup` (lines 251-272): `shutil.copy2` of the canonical
file into the backup directory, with no lock. -/
def create_backup_trace : List Action :=
  [Action.copyDocOut]

/-- Trace of a successful `restore_backup` (lines 274-295): validate the backup
(external test), safety-copy the canonical file out, copy the backup over the
canonical path — with no lock. -/
def restore_backup_trace : List Action :=
  [Action.runExternal, Action.copyDocOut, Action.copyOverDoc]

/-! ### Concrete sample data used by witnesses and counterexamples -/

/-- Sample Reality settings. -/
def sampleRealitySettings : RealitySettings :=
  { serverNames := ["www.example.com"]
    shortIds := ["ab12"] }

/-- Sample stream settings for a Reality inbound. -/
def sampleStreamSettings : StreamSettings :=
  { network := some "tcp"
    security := some "reality"
    realitySettings := some sampleRealitySettings }

/-- Sample client. -/
def aliceClient : Client :=
  { id := "U"
    email := some "alice"
    flow := some "xtls-rprx-vision" }

/-- Sample Reality inbound with one client. -/
def sampleInbound : Inbound :=
  { protocol := some "vless"
    port := 443
    settings := { clients := some [aliceClient] }
    streamSettings := some sampleStreamSettings }

/-- Sample configuration document. -/
def sampleConfig : Config :=
  { inbounds := [sampleInbound] }

/-- Sample client that must survive a deletion of `dup`. -/
def otherClient : Client :=
  { id := "u1"
    email := some "keep"
    flow := none }

/-- First sample client with the duplicated identifier `dup`. -/
def dupClient1 : Client :=
  { id := "dup"
    email := some "d1"
    flow := none }

/-- Second sample client with the duplicated identifier `dup`. -/
def dupClient2 : Client :=
  { id := "dup"
    email := some "d2"
    flow := none }

/-- Inbound whose client list holds the identifier `dup` twice. -/
def dupInbound : Inbound :=
  { protocol := some "vless"
    port := 443
    settings := { clients := some [otherClient, dupClient1, dupClient2] }
    streamSettings := some sampleStreamSettings }

/-- Configuration document around `dupInbound`. -/
def dupConfig : Config :=
  { inbounds := [dupInbound] }

/-- Inbound whose `protocol` field is the upper-case string "VMESS": not one of
the literal values `vless` / `vmess` / `trojan`. -/
def upperVmessInbound : Inbound :=
  { protocol := some "VMESS"
    port := 8443
    settings := { clients := some [] }
    streamSettings := none }

/-! ### C1 — protocol classification -/

/-- Claim C1 counterexample: the claim says any protocol value other than the
literal strings `vless`, `vmess`, `trojan` classifies as `vless_reality`, but
the code lower-cases the field first, so the inbound with protocol `VMESS`
classifies as `vmess_ws`, not `vless_reality`. -/
theorem detect_protocol_uppercase_counterexample :
    upperVmessInbound.protocol = some "VMESS" ∧
    ("VMESS" : String) ≠ "vless" ∧ ("VMESS" : String) ≠ "vmess" ∧
    ("VMESS" : String) ≠ "trojan" ∧
    detect_protocol upperVmessInbound ≠ ProtocolType.vless_reality := by
  refine ⟨rfl, by decide, by decide, by decide, by decide⟩

/-- Claim C1, amended: the classification is a pure function of the inbound's
fields applied to the lower-cased protocol value: lower-cased `vless` gives
`vless_reality` when security is `reality`, else `vless_xhttp` when network is
`xhttp`, else `vless_ws`; lower-cased `vmess` gives `vmess_ws`; lower-cased
`trojan` gives `trojan_xtls`; anything else gives `vless_reality`. -/
theorem detect_protocol_cases (inbound : Inbound) :
    (pyLower (inbound.protocol.getD "") = "vless" → securityOf inbound = "reality" →
      detect_protocol inbound = ProtocolType.vless_reality) ∧
    (pyLower (inbound.protocol.getD "") = "vless" → securityOf inbound ≠ "reality" →
      networkOf inbound = "xhttp" → detect_protocol inbound = ProtocolType.vless_xhttp) ∧
    (pyLower (inbound.protocol.getD "") = "vless" → securityOf inbound ≠ "reality" →
      networkOf inbound ≠ "xhttp" → detect_protocol inbound = ProtocolType.vless_ws) ∧
    (pyLower (inbound.protocol.getD "") = "vmess" →
      detect_protocol inbound = ProtocolType.vmess_ws) ∧
    (pyLower (inbound.protocol.getD "") = "trojan" →
      detect_protocol inbound = ProtocolType.trojan_xtls) ∧
    (pyLower (inbound.protocol.getD "") ≠ "vless" →
      pyLower (inbound.protocol.getD "") ≠ "vmess" →
      pyLower (inbound.protocol.getD "") ≠ "trojan" →
      detect_protocol inbound = ProtocolType.vless_reality) := by
  refine ⟨?_, ?_, ?_, ?_, ?_, ?_⟩
  · intro h1 h2; simp [detect_protocol, h1, h2]
  · intro h1 h2 h3; simp [detect_protocol, h1, h2, h3]
  · intro h1 h2 h3; simp [detect_protocol, h1, h2, h3]
  · intro h1
    by_cases hv : pyLower (inbound.protocol.getD "") = "vless"
    · rw [hv] at h1; exact absurd h1 (by decide)
    · simp [detect_protocol, h1, hv]
  · intro h1
    by_cases hv : pyLower (inbound.protocol.getD "") = "vless"
    · rw [hv] at h1; exact absurd h1 (by decide)
    · by_cases hm : pyLower (inbound.protocol.getD "") = "vmess"
      · rw [hm] at h1; exact absurd h1 (by decide)
      · simp [detect_protocol, h1, hv, hm]
  · intro h1 h2 h3; simp [detect_protocol, h1, h2, h3]

/-- Witness for C1: the sample Reality inbound has lower-cased protocol
`vless` and security `reality`, and classifies as `vless_reality`. -/
theorem detect_protocol_cases_witness :
    pyLower (sampleInbound.protocol.getD "") = "vless" ∧
    securityOf sampleInbound = "reality" ∧
    detect_protocol sampleInbound = ProtocolType.vless_reality :=
  ⟨by decide, by decide,
    (detect_protocol_cases sampleInbound).1 (by decide) (by decide)⟩

/-! ### C2 — Reality connection descriptor -/

/-- Claim C2: for every profile classified `vless_reality`, the generated
connection descriptor is exactly
`vless://id@address:port?type=tcp&security=reality&sni=S&sid=I&flow=xtls-rprx-vision#email`,
where `S` and `I` are the first entries of the inbound's Reality `serverNames`
and `shortIds` lists. -/
theorem generate_connection_link_reality (client_id : String) (server_ip : String)
    (port : Nat) (inbound : Inbound) (email : String) (ss : StreamSettings)
    (rs : RealitySettings) (sni : String) (short_id : String)
    (snis : List String) (sids : List String)
    (hss : inbound.streamSettings = some ss)
    (hrs : ss.realitySettings = some rs)
    (hsni : rs.serverNames = sni :: snis)
    (hsid : rs.shortIds = short_id :: sids) :
    generate_connection_link client_id server_ip port ProtocolType.vless_reality
        inbound email
      = some ("vless://" ++ client_id ++ "@" ++ server_ip ++ ":" ++ toString port
          ++ "?type=tcp&security=reality"
          ++ "&sni=" ++ sni
          ++ "&sid=" ++ short_id
          ++ "&flow=xtls-rprx-vision"
          ++ "#" ++ email) := by
  simp [generate_connection_link, hss, hrs, hsni, hsid]

/-- Witness for C2: with identifier `U`, address `1.2.3.4`, port `443`, SNI
`www.example.com`, short id `ab12` and label `alice`, the descriptor is the
exact literal string required by the claim. -/
theorem generate_connection_link_reality_witness :
    generate_connection_link "U" "1.2.3.4" 443 ProtocolType.vless_reality
        sampleInbound "alice"
      = some "vless://U@1.2.3.4:443?type=tcp&security=reality&sni=www.example.com&sid=ab12&flow=xtls-rprx-vision#alice" := by
  rw [generate_connection_link_reality "U" "1.2.3.4" 443 sampleInbound "alice"
    sampleStreamSettings sampleRealitySettings "www.example.com" "ab12" [] []
    rfl rfl rfl rfl]
  decide

/-! ### C3 — lock coverage -/

/-- Claim C3 counterexample: `get_statistics` reads the configuration document
but its trace contains no lock acquisition at all, so not every operation that
touches the document holds the process-wide lock. -/
theorem get_statistics_unlocked :
    Action.readDoc ∈ get_statistics_trace ∧
    Action.lockAcquire ∉ get_statistics_trace ∧
    allTouchesLocked get_statistics_trace = false := by
  decide

/-- Claim C3, amended: profile listing, profile creation and profile deletion
hold the process-wide lock for all their document accesses, but statistics,
system info, backup and restore touch the document with no lock at all, so
those four operations are not serialized with the rest. -/
theorem lock_coverage :
    allTouchesLocked get_all_profiles_trace = true ∧
    allTouchesLocked create_profile_trace = true ∧
    allTouchesLocked delete_profile_trace = true ∧
    allTouchesLocked get_statistics_trace = false ∧
    allTouchesLocked get_system_info_trace = false ∧
    allTouchesLocked create_backup_trace = false ∧
    allTouchesLocked restore_backup_trace = false := by
  decide

/-! ### C4 — deleting an absent profile -/

/-- Claim C4: when the profile identifier matches no entry of the first
inbound's client list, `delete_profile` returns the not-found indicator
`false` and the persisted document is exactly the original one — in
particular its client list is unchanged. -/
theorem delete_profile_not_found (config : Config) (profile_id : String)
    (inbound : Inbound) (rest : List Inbound)
    (hinb : config.inbounds = inbound :: rest)
    (habs : ∀ c ∈ inbound.settings.clients.getD [], c.id ≠ profile_id) :
    delete_profile config profile_id = some (false, config) := by
  have hfilter : (inbound.settings.clients.getD []).filter
      (fun c => c.id ≠ profile_id) = inbound.settings.clients.getD [] := by
    apply List.filter_eq_self.mpr
    intro a ha
    simpa using habs a ha
  simp [delete_profile, hinb, hfilter]
  exact habs

/-- Witness for C4: deleting the identifier `missing`, absent from the sample
document's client list, returns `false` and leaves the document unchanged. -/
theorem delete_profile_not_found_witness :
    (∀ c ∈ sampleInbound.settings.clients.getD [], c.id ≠ "missing") ∧
    delete_profile sampleConfig "missing" = some (false, sampleConfig) :=
  ⟨by decide,
    delete_profile_not_found sampleConfig "missing" sampleInbound [] rfl (by decide)⟩

/-! ### C5 — atomic write on validation failure -/

/-- Claim C5: when the external configuration test exits non-zero, the write
fails with the invalid-config error, the canonical document and the `.tmp`
write sibling are exactly as before, and — for any exit code — the throwaway
validation file is gone afterwards, both after `_validate_config` itself and
after `_write_config`. -/
theorem write_config_validation_failure (xrayTest : Config → Int) (fs : FS)
    (config : Config) (hfail : xrayTest config ≠ 0) :
    (write_config xrayTest fs config).1 = Except.error "Invalid Xray config" ∧
    ((write_config xrayTest fs config).2).canonical = fs.canonical ∧
    ((write_config xrayTest fs config).2).tmpSibling = fs.tmpSibling ∧
    (∀ xt : Config → Int,
      ((validate_config xt fs config).2).validationTmp = none ∧
      ((write_config xt fs config).2).validationTmp = none) := by
  refine ⟨?_, ?_, ?_, ?_⟩
  · simp [write_config, validate_config, hfail]
  · simp [write_config, validate_config, hfail]
  · simp [write_config, validate_config, hfail]
  · intro xt
    by_cases h : xt config = 0 <;> simp [write_config, validate_config, h]

/-- Witness for C5: with a validator that always exits 1, writing a candidate
over the sample state fails and changes nothing, and the validation file is
removed. -/
theorem write_config_validation_failure_witness :
    ((fun _ : Config => (1 : Int)) sampleConfig ≠ 0) ∧
    ((write_config (fun _ => 1)
        { canonical := some sampleConfig, tmpSibling := none,
          validationTmp := none, backups := [] } sampleConfig).1
      = Except.error "Invalid Xray config") ∧
    ((write_config (fun _ => 1)
        { canonical := some sampleConfig, tmpSibling := none,
          validationTmp := none, backups := [] } sampleConfig).2
      = { canonical := some sampleConfig, tmpSibling := none,
          validationTmp := none, backups := [] }) := by
  have h := write_config_validation_failure (fun _ => 1)
    { canonical := some sampleConfig, tmpSibling := none,
      validationTmp := none, backups := [] } sampleConfig (by decide)
  exact ⟨by decide, h.1, by decide⟩

/-! ### C6 — label sanitization on profile creation -/

/-- Claim C6 failing input, evaluated: the `POST /api/profiles` handler passes
the raw query string to the manager, so creating a profile with the label
`" Alice "` stores and lists the label exactly as given — not the trimmed,
lower-cased `"alice"` that `ProfileCreate.validate_email` would produce (the
model is never applied by the endpoint). -/
theorem create_profile_stores_raw_label :
    (endpoint_create_profile sampleConfig "u-2" " Alice ").map
        (fun r => listedLabels r.2)
      = some [some "alice", some " Alice "] ∧
    validate_email " Alice " = "alice" ∧
    (" Alice " : String) ≠ "alice" := by
  decide

/-! ### C7 — statistics failures are swallowed -/

/-- Claim C7: whenever reading the configuration document fails, statistics
retrieval still returns a value — the all-zero snapshot. -/
theorem get_statistics_on_error (r : Except String Config) (e : String)
    (hr : r = Except.error e) :
    get_statistics r = zeroStats ∧
    (get_statistics r).active_connections = 0 ∧
    (get_statistics r).total_profiles = 0 ∧
    (get_statistics r).uptime_seconds = 0 ∧
    (get_statistics r).total_traffic_bytes = 0 := by
  subst hr
  exact ⟨rfl, rfl, rfl, rfl, rfl⟩

/-- Witness for C7: a missing-file read error yields the zero snapshot. -/
theorem get_statistics_on_error_witness :
    get_statistics (Except.error "Config not found") = zeroStats :=
  (get_statistics_on_error (Except.error "Config not found") "Config not found"
    rfl).1

/-! ### C8 — restore -/

/-- Claim C8: restoring from a non-existent path fails with the not-found
error and leaves the whole file-system state untouched; restoring from an
existing backup that passes validation first appends a safety copy of the
current canonical document to the backup directory, then copies the backup
content directly over the canonical path — the `.tmp` write sibling is never
used — and returns success. -/
theorem restore_backup_spec (xrayTest : Config → Int) (fs : FS)
    (backupFile : Option Config) :
    (backupFile = none →
      restore_backup xrayTest fs backupFile
        = (Except.error "Backup not found", fs)) ∧
    (∀ config current, backupFile = some config → xrayTest config = 0 →
      fs.canonical = some current →
      restore_backup xrayTest fs backupFile
        = (Except.ok true,
            { canonical := some config
              tmpSibling := fs.tmpSibling
              validationTmp := none
              backups := fs.backups ++ [current] })) := by
  constructor
  · intro h
    subst h
    rfl
  · intro config current hb ht hc
    subst hb
    obtain ⟨can, tmp, vtmp, bks⟩ := fs
    simp only [FS.mk.injEq] at hc ⊢
    subst hc
    simp [restore_backup, validate_config, create_backup, ht]

/-- Witness for C8: with a validator that accepts, restoring the sample backup
over the sample state succeeds, takes a safety backup first, and overwrites
the canonical file directly; restoring a missing path fails and changes
nothing. -/
theorem restore_backup_spec_witness :
    restore_backup (fun _ => 0)
        { canonical := some sampleConfig, tmpSibling := none,
          validationTmp := none, backups := [] } (some sampleConfig)
      = (Except.ok true,
          { canonical := some sampleConfig, tmpSibling := none,
            validationTmp := none, backups := [sampleConfig] }) ∧
    restore_backup (fun _ => 0)
        { canonical := some sampleConfig, tmpSibling := none,
          validationTmp := none, backups := [] } none
      = (Except.error "Backup not found",
          { canonical := some sampleConfig, tmpSibling := none,
            validationTmp := none, backups := [] }) :=
  ⟨(restore_backup_spec (fun _ => 0)
      { canonical := some sampleConfig, tmpSibling := none,
        validationTmp := none, backups := [] } (some sampleConfig)).2
      sampleConfig sampleConfig rfl rfl rfl,
   (restore_backup_spec (fun _ => 0)
      { canonical := some sampleConfig, tmpSibling := none,
        validationTmp := none, backups := [] } none).1 rfl⟩

/-! ### C9 — version string parsing -/

/-- Claim C9: the version parse yields the literal `unknown` when the binary
produced no output, and otherwise the last whitespace-delimited token of the
first output line. -/
theorem parse_xray_version_spec (out : String) (ts : List String) (t : String) :
    parse_xray_version "" = some "unknown" ∧
    (out ≠ "" → pyTokens (firstLineOf out) = ts ++ [t] →
      parse_xray_version out = some t) := by
  constructor
  · rfl
  · intro h1 h2
    unfold parse_xray_version
    rw [if_neg h1, h2]
    simp

/-- Witness for C9: on the output `Xray 1.8.24` followed by a second line, the
parsed version is `1.8.24`; on empty output it is `unknown`. -/
theorem parse_xray_version_spec_witness :
    parse_xray_version "" = some "unknown" ∧
    parse_xray_version "Xray 1.8.24\nA unified platform" = some "1.8.24" :=
  ⟨(parse_xray_version_spec "x" [] "x").1,
   (parse_xray_version_spec "Xray 1.8.24\nA unified platform" ["Xray"] "1.8.24").2
     (by decide) (by decide)⟩

/-! ### C10 — delete removes every matching entry -/

/-- Claim C10: when the identifier occurs in the first inbound's client list,
`delete_profile` succeeds and persists the client list filtered of every
matching entry: no remaining entry carries the identifier, and the remaining
entries are exactly the non-matching ones in their original order (a sublist
of the original list). -/
theorem delete_profile_removes_all_matches (config : Config) (profile_id : String)
    (inbound : Inbound) (rest : List Inbound) (c : Client)
    (hinb : config.inbounds = inbound :: rest)
    (hc : c ∈ inbound.settings.clients.getD [])
    (hid : c.id = profile_id) :
    delete_profile config profile_id
      = some (true, setClients config
          ((inbound.settings.clients.getD []).filter (fun x => x.id ≠ profile_id))) ∧
    clientsOfConfig (setClients config
        ((inbound.settings.clients.getD []).filter (fun x => x.id ≠ profile_id)))
      = (inbound.settings.clients.getD []).filter (fun x => x.id ≠ profile_id) ∧
    (∀ x ∈ (inbound.settings.clients.getD []).filter (fun x => x.id ≠ profile_id),
      x.id ≠ profile_id) ∧
    ((inbound.settings.clients.getD []).filter
      (fun x => x.id ≠ profile_id)).Sublist (inbound.settings.clients.getD []) := by
  have hlt : ((inbound.settings.clients.getD []).filter
      (fun x => x.id ≠ profile_id)).length
      < (inbound.settings.clients.getD []).length := by
    apply List.length_filter_lt_length_iff_exists.mpr
    exact ⟨c, hc, by simp [hid]⟩
  refine ⟨?_, ?_, ?_, List.filter_sublist _⟩
  · simp [delete_profile, hinb, Nat.ne_of_lt hlt]
    exact ⟨c, hc, hid⟩
  · simp [clientsOfConfig, setClients, hinb]
  · intro x hx
    simpa using (List.mem_filter.mp hx).2

/-- Witness for C10: deleting `dup` from a list holding two entries with that
identifier removes both and keeps the one other entry. -/
theorem delete_profile_removes_all_matches_witness :
    dupClient1 ∈ dupInbound.settings.clients.getD [] ∧
    dupClient1.id = "dup" ∧
    delete_profile dupConfig "dup" = some (true, setClients dupConfig [otherClient]) ∧
    (∀ x ∈ clientsOfConfig (setClients dupConfig [otherClient]), x.id ≠ "dup") := by
  have h := delete_profile_removes_all_matches dupConfig "dup" dupInbound []
    dupClient1 rfl (by decide) rfl
  have hfe : (dupInbound.settings.clients.getD []).filter
      (fun x => x.id ≠ "dup") = [otherClient] := by decide
  have h1 := h.1
  rw [hfe] at h1
  exact ⟨by decide, rfl, h1, by decide⟩

end Xray
